import Mathlib

/-
Verification of the disaster_assistant chat service (src/translate.py).

The file shallowly embeds the pure request/response logic of the four Flask
handlers (`/chat`, `/transcribe`, `/speak`, `/languages`) and of the helper
functions `translate_text` and `get_groq_response`.  External services
(Google translation, the Groq completion endpoint, the Whisper transcription
endpoint) are modelled as oracle functions returning `Except String String`,
where `Except.error` stands for the Python call raising an exception.
Python strings are modelled as Lean `String`; `str.strip()` / `str.split()`
use Python's whitespace set, reproduced below.
-/

namespace DisasterAssistant

/-- Code points treated as whitespace by Python `str.strip()` and
`str.split()` (Unicode whitespace). -/
def PY_WHITESPACE_CODES : List Nat :=
  [0x09, 0x0A, 0x0B, 0x0C, 0x0D, 0x1C, 0x1D, 0x1E, 0x1F, 0x20, 0x85, 0xA0,
   0x1680, 0x2000, 0x2001, 0x2002, 0x2003, 0x2004, 0x2005, 0x2006, 0x2007,
   0x2008, 0x2009, 0x200A, 0x2028, 0x2029, 0x202F, 0x205F, 0x3000]

/-- Python whitespace test on a character. -/
def isPyWS (c : Char) : Bool := PY_WHITESPACE_CODES.contains c.toNat

/-- Remove leading Python whitespace (left half of `str.strip()`). -/
def dropLeadingWS (l : List Char) : List Char := l.dropWhile isPyWS

/-- Remove trailing Python whitespace (right half of `str.strip()`). -/
def dropTrailingWS (l : List Char) : List Char := (l.reverse.dropWhile isPyWS).reverse

/-- Both halves of `str.strip()` on a character list. -/
def trimWS (l : List Char) : List Char := dropTrailingWS (dropLeadingWS l)

/-- Python `str.strip()` with no argument. -/
def pyStrip (s : String) : String := ⟨trimWS s.data⟩

/-- Helper for `pySplit`: walks the characters, accumulating the current
token reversed, and emits a token at each whitespace boundary. -/
def pySplitAux : List Char → List Char → List String
  | [], cur => if cur.isEmpty then [] else [⟨cur.reverse⟩]
  | c :: cs, cur =>
    if isPyWS c then
      if cur.isEmpty then pySplitAux cs [] else (⟨cur.reverse⟩ : String) :: pySplitAux cs []
    else pySplitAux cs (c :: cur)

/-- Python `str.split()` with no argument: split on whitespace runs,
discarding empty fragments. -/
def pySplit (s : String) : List String := pySplitAux s.data []

/-- The code points of the 27 distinct characters in the character class of
the `re.sub` pattern at src/translate.py line 138 (the mojibake decorative
symbols, `*`, `+` and the hyphen; `\-` and the escaped characters in the
class denote themselves). -/
def SYMBOL_CODES : List Nat :=
  [0xE2, 0x20AC, 0xA2, 0x2A, 0x2B, 0x2020, 0x2019, 0x2D, 0x201C, 0x201D,
   0x2013, 0xB6, 0xEF, 0xB8, 0xF0, 0x178, 0x152, 0x17D, 0x2122, 0x161,
   0xA8, 0x2C6, 0xA1, 0x2014, 0x153, 0x2026, 0xA5]

/-- Membership in the decorative-symbol set of the `re.sub` pattern. -/
def isDecorative (c : Char) : Bool := SYMBOL_CODES.contains c.toNat

/-- `re.sub(r"[...]", "", s)` for the fixed character class: delete every
occurrence of a character of the class. -/
def removeSymbols (s : String) : String := ⟨s.data.filter (fun c => !(isDecorative c))⟩

/-- The cleaning step of `/chat` (lines 138 and 141): symbol removal followed
by `strip()`. -/
def clean (s : String) : String := pyStrip (removeSymbols s)

/-- The `LANGUAGES` dictionary (src/translate.py lines 31-34). -/
def LANGUAGES : List (String × String) :=
  [("hi", "Hindi"), ("te", "Telugu"), ("ta", "Tamil"), ("bn", "Bengali"),
   ("mr", "Marathi"), ("ml", "Malayalam"), ("kn", "Kannada"), ("en", "English")]

/-- The `/languages` handler: returns the catalog. -/
def get_languages : List (String × String) := LANGUAGES

/-- The `VOICE_MAP` dictionary (src/translate.py lines 63-75). -/
def VOICE_MAP : List (String × String) :=
  [("en", "en-US-JennyNeural"), ("hi", "hi-IN-SwaraNeural"),
   ("bn", "bn-IN-TanishaaNeural"), ("ta", "ta-IN-PallaviNeural"),
   ("te", "te-IN-ShrutiNeural"), ("mr", "mr-IN-AarohiNeural"),
   ("gu", "gu-IN-DhwaniNeural"), ("kn", "kn-IN-SapnaNeural"),
   ("ml", "ml-IN-SobhanaNeural"), ("pa", "pa-IN-OjasNeural"),
   ("ur", "ur-IN-GulNeural")]

/-- `translate_text` (lines 36-44).  `svc text target source` models
`GoogleTranslator(source, target).translate(text)`; `Except.error` models the
call raising.  The returned Bool records whether `warnings.warn` ran.  If
`source_lang == target_lang` the text is returned without consulting the
service; on a service error the original text is returned with a warning. -/
def translate_text (svc : String → String → String → Except String String)
    (text target_lang source_lang : String) : String × Bool :=
  if source_lang = target_lang then (text, false)
  else
    match svc text target_lang source_lang with
    | Except.ok r => (r, false)
    | Except.error _ => (text, true)

/-- `get_groq_response` (lines 46-56).  `svc prompt` models the
`client.chat.completions.create` call (model and temperature are fixed in the
source and folded into the oracle); on a service error the handler raises
`RuntimeError` with the wrapped message, modelled as `Except.error`. -/
def get_groq_response (svc : String → Except String String) (prompt : String) :
    Except String String :=
  match svc prompt with
  | Except.ok content => Except.ok content
  | Except.error e => Except.error ("Groq API error: " ++ e)

/-- The fixed disambiguation phrase of line 121. -/
def disasterContext : String := "This is a disaster-related question: "

/-- Lines 120-121 of `chat`: prefix the English input with the disaster
context when it has fewer than 3 whitespace-separated tokens. -/
def padPrompt (english_input : String) : String :=
  if (pySplit (pyStrip english_input)).length < 3 then disasterContext ++ english_input
  else english_input

/-- Line 111 of `chat`: `data.get("lang_code", "en")`. -/
def chatLangCode (lang_code? : Option String) : String := lang_code?.getD "en"

/-- Body of a `/chat` JSON reply: a `response` field or an `error` field. -/
inductive ChatBody where
  | resp : String → ChatBody
  | err : String → ChatBody
  deriving DecidableEq

/-- The `/chat` handler (lines 106-142).  `trSvc` is the translation oracle,
`gq` the completion oracle; `input?` and `lang_code?` are the JSON fields
(`none` = absent).  The result is `Except.error` when the handler raises (the
uncaught `RuntimeError` from `get_groq_response`), otherwise the HTTP status
and JSON body. -/
def chat (trSvc : String → String → String → Except String String)
    (gq : String → Except String String)
    (input? lang_code? : Option String) : Except String (Nat × ChatBody) :=
  let lang_code := chatLangCode lang_code?
  match input? with
  | none => Except.ok (400, ChatBody.err "Missing input text")
  | some user_input =>
    if user_input = "" then Except.ok (400, ChatBody.err "Missing input text")
    else
      let english_input := (translate_text trSvc user_input "en" lang_code).1
      let prompt := padPrompt english_input
      match get_groq_response gq prompt with
      | Except.error e => Except.error e
      | Except.ok groq_response =>
        let response_text := groq_response
        let translated_response := (translate_text trSvc response_text lang_code "en").1
        let cleaned_response := removeSymbols translated_response
        Except.ok (200, ChatBody.resp (pyStrip cleaned_response))

/-- Body of a `/transcribe` JSON reply. -/
inductive TransBody where
  | transcript : String → TransBody
  | err : String → TransBody
  deriving DecidableEq

/-- The `/transcribe` handler (lines 146-171).  `svc audio lang` models the
Whisper transcription call; `audio?` is the uploaded blob (`none` = no
`audio` part in the form), `lang_code?` the form field. -/
def transcribe (svc : String → String → Except String String)
    (audio? lang_code? : Option String) : Nat × TransBody :=
  let lang_code := lang_code?.getD "en"
  match audio? with
  | none => (400, TransBody.err "No audio file provided")
  | some audio_bytes =>
    match svc audio_bytes lang_code with
    | Except.error e => (500, TransBody.err ("Transcription failed: " ++ e))
    | Except.ok user_input =>
      if user_input = "" ∨ pyStrip user_input = "" then
        (400, TransBody.err "No speech detected")
      else (200, TransBody.transcript (pyStrip user_input))

/-- Result of the `/speak` handler: either a 400 error body, or a streamed
`edge-tts` invocation with the chosen voice and text. -/
inductive SpeakResult where
  | err : Nat → String → SpeakResult
  | stream : String → String → SpeakResult
  deriving DecidableEq

/-- The `/speak` handler (lines 77-99).  `text?` and `lang?` are the query
parameters (`none` = absent; Flask's `request.args.get` defaults apply). -/
def speak_stream (text? lang? : Option String) : SpeakResult :=
  let text := text?.getD ""
  let lang_code := lang?.getD "en"
  if text = "" then SpeakResult.err 400 "No text provided"
  else SpeakResult.stream ((VOICE_MAP.lookup lang_code).getD "en-US-JennyNeural") text

/- ------------------------------------------------------------------ -/
/- Helper lemmas                                                       -/
/- ------------------------------------------------------------------ -/

/-- `(a ++ b).data = a.data ++ b.data` for strings. -/
theorem string_append_data (a b : String) : (a ++ b).data = a.data ++ b.data := rfl

/-- The head surviving a `dropWhile` does not satisfy the predicate. -/
theorem dropWhile_head_not {α} (p : α → Bool) (l : List α) {a : α}
    (h : (l.dropWhile p).head? = some a) : p a = false := by
  have hm := List.head?_dropWhile_not p l
  rw [h] at hm
  exact hm

/-- `dropWhile` is the identity when the head does not satisfy the predicate. -/
theorem dropWhile_of_head_not {α} (p : α → Bool) (l : List α)
    (h : l.head?.all (fun a => !p a) = true) : l.dropWhile p = l := by
  cases l with
  | nil => rfl
  | cons a t =>
    have ha : p a = false := by simpa using h
    simp [List.dropWhile_cons, ha]

/-- `dropWhile` is idempotent. -/
theorem dropWhile_idem {α} (p : α → Bool) (l : List α) :
    (l.dropWhile p).dropWhile p = l.dropWhile p := by
  apply dropWhile_of_head_not
  cases hh : (l.dropWhile p).head? with
  | none => rfl
  | some a => simp [dropWhile_head_not p l hh]

/-- Removing trailing whitespace twice is the same as doing it once. -/
theorem dropTrailingWS_idem (l : List Char) :
    dropTrailingWS (dropTrailingWS l) = dropTrailingWS l := by
  simp [dropTrailingWS, List.reverse_reverse, dropWhile_idem]

/-- A list is its trailing-whitespace-free part followed by the removed run. -/
theorem dropTrailingWS_append (l : List Char) :
    l = dropTrailingWS l ++ (l.reverse.takeWhile isPyWS).reverse := by
  have h := List.takeWhile_append_dropWhile isPyWS l.reverse
  have h2 := congrArg List.reverse h
  simp only [List.reverse_append, List.reverse_reverse] at h2
  rw [dropTrailingWS]
  exact h2.symm

/-- The head of a list is unchanged by removing trailing whitespace, as long
as something remains. -/
theorem head?_dropTrailingWS (l : List Char) {a : Char}
    (h : (dropTrailingWS l).head? = some a) : l.head? = some a := by
  rw [dropTrailingWS_append l, List.head?_append, h]
  rfl

/-- The first character surviving `trimWS` is not whitespace. -/
theorem head_trimWS_not_ws (l : List Char) :
    (trimWS l).head?.all (fun c => !isPyWS c) = true := by
  cases hh : (trimWS l).head? with
  | none => rfl
  | some a =>
    have h1 : (dropLeadingWS l).head? = some a := head?_dropTrailingWS _ hh
    have h2 : isPyWS a = false := dropWhile_head_not isPyWS l h1
    simp [h2]

/-- The last character surviving `trimWS` is not whitespace. -/
theorem getLast_trimWS_not_ws (l : List Char) :
    (trimWS l).getLast?.all (fun c => !isPyWS c) = true := by
  have hrev : (trimWS l).reverse = (dropLeadingWS l).reverse.dropWhile isPyWS := by
    simp [trimWS, dropTrailingWS]
  rw [List.getLast?_eq_head?_reverse, hrev]
  cases hh : ((dropLeadingWS l).reverse.dropWhile isPyWS).head? with
  | none => rfl
  | some a => simp [dropWhile_head_not isPyWS (dropLeadingWS l).reverse hh]

/-- `trimWS` is idempotent. -/
theorem trimWS_idem (l : List Char) : trimWS (trimWS l) = trimWS l := by
  have h1 : dropLeadingWS (trimWS l) = trimWS l :=
    dropWhile_of_head_not isPyWS (trimWS l) (head_trimWS_not_ws l)
  show dropTrailingWS (dropLeadingWS (trimWS l)) = trimWS l
  rw [h1]
  show dropTrailingWS (dropTrailingWS (dropLeadingWS l)) = trimWS l
  rw [dropTrailingWS_idem]
  rfl

/-- Characters surviving `trimWS` were in the original list. -/
theorem mem_trimWS {a : Char} {l : List Char} (h : a ∈ trimWS l) : a ∈ l := by
  simp only [trimWS, dropTrailingWS, List.mem_reverse] at h
  have h2 : a ∈ (dropLeadingWS l).reverse := (List.dropWhile_sublist isPyWS).subset h
  rw [List.mem_reverse] at h2
  exact (List.dropWhile_sublist isPyWS).subset h2

/-- The disambiguation phrase is never a left identity for append. -/
theorem disasterContext_append_ne (e : String) : disasterContext ++ e ≠ e := by
  intro h
  have hl := congrArg (fun s => s.data.length) h
  simp only [string_append_data, List.length_append] at hl
  have h37 : disasterContext.data.length = 37 := by decide
  omega

/- ------------------------------------------------------------------ -/
/- Claim theorems                                                      -/
/- ------------------------------------------------------------------ -/

/-- Claim C2: if the translation service call raises (here: `source` and
`target` differ, so the call is actually made, and the oracle returns an
error), `translate_text` returns the original text unchanged and emits a
warning (second component `true`).  Its Lean model is a total function into
`String × Bool`, so it never raises and never aborts the turn. -/
theorem translate_text_fail_open
    (svc : String → String → String → Except String String)
    (text target source err : String)
    (hne : source ≠ target) (h : svc text target source = Except.error err) :
    translate_text svc text target source = (text, true) := by
  simp only [translate_text, if_neg hne, h]

/-- Witness for C2 at a concrete always-failing service. -/
theorem translate_text_fail_open_witness :
    translate_text (fun _ _ _ => Except.error "service down") "hola" "en" "es"
      = ("hola", true) :=
  translate_text_fail_open (fun _ _ _ => Except.error "service down")
    "hola" "en" "es" "service down" (by decide) rfl

/-- Claim C3: if the completion-service call fails, `get_groq_response`
returns the wrapped `RuntimeError` message (an `Except.error`, i.e. the
Python function raises) and never returns any fallback `Except.ok` value. -/
theorem groq_fail_closed (svc : String → Except String String) (prompt e : String)
    (h : svc prompt = Except.error e) :
    get_groq_response svc prompt = Except.error ("Groq API error: " ++ e)
    ∧ ∀ v, get_groq_response svc prompt ≠ Except.ok v := by
  have h1 : get_groq_response svc prompt = Except.error ("Groq API error: " ++ e) := by
    simp only [get_groq_response, h]
  refine ⟨h1, fun v hv => ?_⟩
  rw [h1] at hv
  exact Except.noConfusion hv

/-- Witness for C3 at a concrete always-failing service. -/
theorem groq_fail_closed_witness :
    get_groq_response (fun _ => Except.error "boom") "any prompt"
      = Except.error ("Groq API error: " ++ "boom") :=
  (groq_fail_closed (fun _ => Except.error "boom") "any prompt" "boom" rfl).1

/-- Claim C6: when source equals target, `translate_text` is the identity.
The result is the same for every service oracle `svc` (the equal-language
branch returns before the service is consulted), and no warning is
emitted. -/
theorem translate_same_lang_identity
    (svc : String → String → String → Except String String) (text L : String) :
    translate_text svc text L L = (text, false) := by
  simp [translate_text]

/-- Claim C9: `POST /chat` with a missing `input` field yields HTTP 400 with
an `error` body.  The equation holds for every translation and completion
oracle, so neither service is consulted for such a request.  (The same body
is produced for an empty `input`, which Python also treats as falsy.) -/
theorem chat_missing_input_400
    (trSvc : String → String → String → Except String String)
    (gq : String → Except String String) (lang_code? : Option String) :
    chat trSvc gq none lang_code? = Except.ok (400, ChatBody.err "Missing input text")
    ∧ chat trSvc gq (some "") lang_code?
        = Except.ok (400, ChatBody.err "Missing input text") := by
  constructor
  · rfl
  · simp [chat]

/-- Claim C10: `GET /speak` with a missing or empty `text` query parameter
yields HTTP 400 with the `No text provided` error body; the result is the
`err` constructor, not a `stream`, so no synthesis subprocess is modelled as
started. -/
theorem speak_missing_text_400 (lang? : Option String) :
    speak_stream none lang? = SpeakResult.err 400 "No text provided"
    ∧ speak_stream (some "") lang? = SpeakResult.err 400 "No text provided" := by
  constructor
  · rfl
  · simp [speak_stream]

/-- Claim C1: for a `/chat` request with non-empty input and language code
from `lang_code?`, whenever the completion oracle succeeds on the padded
prompt, the returned 200 `response` body is exactly the composition, in
order: translate the input to English (source = the request language), pad
with `padPrompt`, complete (the prompt in hypothesis `hg`), translate the
completion back (target = the request language, source English), remove the
decorative symbols, and strip surrounding whitespace. -/
theorem chat_pipeline_order
    (trSvc : String → String → String → Except String String)
    (gq : String → Except String String)
    (s : String) (lang_code? : Option String) (g : String)
    (hs : s ≠ "")
    (hg : gq (padPrompt (translate_text trSvc s "en" (chatLangCode lang_code?)).1)
        = Except.ok g) :
    chat trSvc gq (some s) lang_code? =
      Except.ok (200, ChatBody.resp (pyStrip (removeSymbols
        (translate_text trSvc g (chatLangCode lang_code?) "en").1))) := by
  simp only [chat, if_neg hs, get_groq_response, hg]

/-- Witness for C1: identity translator, constant completion. -/
theorem chat_pipeline_order_witness :
    chat (fun t _ _ => Except.ok t) (fun _ => Except.ok "Stay safe")
      (some "help") (some "hi") = Except.ok (200, ChatBody.resp "Stay safe") := by
  rw [chat_pipeline_order (fun t _ _ => Except.ok t) (fun _ => Except.ok "Stay safe")
      "help" (some "hi") "Stay safe" (by decide) rfl]
  rfl

/-- Claim C4: the prompt produced by lines 120-121 equals the fixed
disaster-context phrase prepended to the English input exactly when that
input has fewer than 3 whitespace-separated tokens; with 3 or more tokens
the input is passed through unchanged. -/
theorem prompt_padded_iff (e : String) :
    (padPrompt e = disasterContext ++ e ↔ (pySplit (pyStrip e)).length < 3)
    ∧ (3 ≤ (pySplit (pyStrip e)).length → padPrompt e = e) := by
  constructor
  · constructor
    · intro h
      by_contra hc
      push_neg at hc
      rw [padPrompt, if_neg (by omega)] at h
      exact disasterContext_append_ne e h.symm
    · intro h
      rw [padPrompt, if_pos h]
  · intro h
    rw [padPrompt, if_neg (by omega)]

/-- Witness for C4: a 1-token input is padded, a 4-token input is not. -/
theorem prompt_padded_iff_witness :
    padPrompt "hi" = disasterContext ++ "hi"
    ∧ padPrompt "send food and water" = "send food and water" :=
  ⟨(prompt_padded_iff "hi").1.mpr (by decide),
   (prompt_padded_iff "send food and water").2 (by decide)⟩

/-- Claim C5: the cleaning step of `/chat` (symbol removal then strip) is
idempotent, its output contains no character of the decorative-symbol set,
and its output has neither a leading nor a trailing whitespace character. -/
theorem clean_idempotent_and_sanitized (x : String) :
    clean (clean x) = clean x
    ∧ (clean x).data.all (fun c => !(isDecorative c)) = true
    ∧ (clean x).data.head?.all (fun c => !(isPyWS c)) = true
    ∧ (clean x).data.getLast?.all (fun c => !(isPyWS c)) = true := by
  have hdata : (clean x).data = trimWS (x.data.filter (fun c => !(isDecorative c))) := rfl
  have hall : ∀ a ∈ (clean x).data, (!(isDecorative a)) = true := by
    intro a ha
    rw [hdata] at ha
    exact (List.mem_filter.mp (mem_trimWS ha)).2
  refine ⟨?_, ?_, ?_, ?_⟩
  · have h1 : (clean x).data.filter (fun c => !(isDecorative c)) = (clean x).data :=
      List.filter_eq_self.mpr hall
    show (⟨trimWS ((clean x).data.filter (fun c => !(isDecorative c)))⟩ : String) = clean x
    rw [h1, hdata, trimWS_idem]
    rfl
  · exact List.all_eq_true.mpr hall
  · show (trimWS (x.data.filter (fun c => !(isDecorative c)))).head?.all
        (fun c => !(isPyWS c)) = true
    exact head_trimWS_not_ws _
  · show (trimWS (x.data.filter (fun c => !(isDecorative c)))).getLast?.all
        (fun c => !(isPyWS c)) = true
    exact getLast_trimWS_not_ws _

/-- Claim C7, counterexample: the language code used by `/chat` for
`lang_code = "xx"` is neither the default `"en"` nor a key of `LANGUAGES` —
`chat` performs no catalog lookup and no fallback for a present but
unrecognized `lang_code`.  The concrete run (with a translator oracle that
records its source and target arguments, and an echoing completion oracle)
shows `"xx"` flowing into both translation calls of the pipeline. -/
theorem chat_lang_no_fallback_counterexample :
    ¬ (chatLangCode (some "xx") = "en"
        ∨ (LANGUAGES.lookup (chatLangCode (some "xx"))).isSome = true)
    ∧ chat (fun t tgt src => Except.ok (src ++ "|" ++ tgt ++ "|" ++ t))
        (fun p => Except.ok p) (some "water") (some "xx")
      = Except.ok (200,
          ChatBody.resp "en|xx|This is a disasterrelated question: xx|en|water") := by
  constructor
  · decide
  · rfl

/-- Claim C7, amended: `GET /speak` with a `lang` that is not a key of
`VOICE_MAP` uses the default voice `en-US-JennyNeural`; `POST /chat` uses
the default language code `"en"` only when `lang_code` is absent from the
request, and passes any present `lang_code` — recognized or not — through
unchanged to the translator. -/
theorem speak_default_voice_chat_lang_passthrough :
    (∀ lang, VOICE_MAP.lookup lang = none → ∀ t, t ≠ "" →
      speak_stream (some t) (some lang) = SpeakResult.stream "en-US-JennyNeural" t)
    ∧ chatLangCode none = "en"
    ∧ ∀ L, chatLangCode (some L) = L := by
  refine ⟨?_, rfl, fun L => rfl⟩
  intro lang hl t ht
  simp only [speak_stream, Option.getD_some, if_neg ht, hl, Option.getD_none]

/-- Witness for the amended C7 at the unrecognized code `"xx"`. -/
theorem speak_default_voice_witness :
    speak_stream (some "hello") (some "xx")
      = SpeakResult.stream "en-US-JennyNeural" "hello" :=
  speak_default_voice_chat_lang_passthrough.1 "xx" (by decide) "hello" (by decide)

/-- Claim C8: `/transcribe` with no `audio` part yields HTTP 400 with the
`No audio file provided` error; a transcription result that strips to empty
yields the `No speech detected` error; a transcription-service exception
yields the `Transcription failed: ...` error, which differs from the
no-speech message for every exception text. -/
theorem transcribe_error_paths
    (svc : String → String → Except String String)
    (a : String) (lang_code? : Option String) :
    transcribe svc none lang_code? = (400, TransBody.err "No audio file provided")
    ∧ (∀ t, svc a (lang_code?.getD "en") = Except.ok t → pyStrip t = "" →
        transcribe svc (some a) lang_code? = (400, TransBody.err "No speech detected"))
    ∧ (∀ e, svc a (lang_code?.getD "en") = Except.error e →
        transcribe svc (some a) lang_code?
            = (500, TransBody.err ("Transcription failed: " ++ e))
        ∧ ("Transcription failed: " ++ e) ≠ "No speech detected") := by
  refine ⟨rfl, ?_, ?_⟩
  · intro t h1 h2
    simp only [transcribe, h1]
    rw [if_pos (Or.inr h2)]
  · intro e h1
    refine ⟨by simp only [transcribe, h1], ?_⟩
    intro hEq
    have hl := congrArg (fun s => s.data.length) hEq
    simp only [string_append_data, List.length_append] at hl
    norm_num at hl
    omega

/-- Witness for C8: the three paths at concrete oracles. -/
theorem transcribe_error_paths_witness :
    transcribe (fun _ _ => Except.error "net") none none
      = (400, TransBody.err "No audio file provided")
    ∧ transcribe (fun _ _ => Except.error "net") (some "blob") none
      = (500, TransBody.err ("Transcription failed: " ++ "net"))
    ∧ transcribe (fun _ _ => Except.ok "   ") (some "blob") none
      = (400, TransBody.err "No speech detected") :=
  ⟨(transcribe_error_paths (fun _ _ => Except.error "net") "blob" none).1,
   ((transcribe_error_paths (fun _ _ => Except.error "net") "blob" none).2.2 "net" rfl).1,
   (transcribe_error_paths (fun _ _ => Except.ok "   ") "blob" none).2.1 "   " rfl
     (by decide)⟩

end DisasterAssistant
